import Mathlib

/-!
Shallow embedding of the `Readable<T>` observable cell from
`svelte-store-wasm` (src/lib.rs), together with proofs of the specified
properties.

Modelling choices:
* `T` is the stored value type, `U` the externally published
  representation (`JsValue` in the source).
* The `OnceCell<js_sys::Function>` holding the captured publish callback
  becomes an `Option Nat`: publish callbacks handed over by the external
  store primitive are identified by numeric ids.
* The stored projection (`mapped_set_fn : FnMut(&T) -> JsValue`) becomes a
  function `T → U`; each invocation is recorded in an event trace, so
  "exactly one projection call" is a statement about the trace.
* Every call through a publish callback is likewise recorded in the trace.
  Whether such a call succeeds is decided by an environment oracle
  `pok : Nat → U → Bool` (callback id and argument); a failed `.expect`
  becomes an `Except.error` carrying the panic message, while the
  already-committed heap state is still reported.
* `#[cfg(target_arch = "wasm32")]` is modelled by a `Target` parameter
  where it changes observable behaviour (`get_store`); the cell state
  embeds the wasm32 variant of the struct, which has all the fields.
-/

namespace SvelteStore

/-- Observable event emitted while running a cell operation: either an
invocation of the stored projection function on an argument, yielding a
representation, or a call through a publish callback (identified by its
numeric id) carrying a representation. -/
inductive Event (T U : Type) where
  | projection (arg : T) (result : U)
  | publish (callback : Nat) (representation : U)
deriving DecidableEq

/-- State of a `Readable<T>` cell (struct `Readable` in src/lib.rs):
`value` is the content of the `Rc<UnsafeCell<T>>`; `set_store` is the
`OnceCell<js_sys::Function>` holding the captured publish callback once an
observer has subscribed; `mapped_set_fn` is the stored projection;
`store` is the opaque handle returned by the external primitive
(`bindings::Readable`). -/
structure Readable (T U : Type) where
  value : T
  set_store : Option Nat
  mapped_set_fn : T → U
  store : Nat

/-- Outcome of running one entry point of the cell: the cell state after
the call (the heap state, committed even when the call aborts), the trace
of projection/publish events in the order they occurred, and either the
value returned (`Except.ok`) or the message of the abort (`Except.error`,
a failed `.expect`). -/
structure MutOut (T U O : Type) where
  state : Readable T U
  events : List (Event T U)
  result : Except String O

variable {T U O : Type}

/-- Construction wiring shared by all constructors
(`Readable::init_store`, src/lib.rs lines 100-150, wasm32 branch): the
projection is applied once to the initial value to produce the initial
representation handed to the external primitive
(`bindings::readable(mapped_set_fn.borrow_mut()(...), &start)`), the
`OnceCell` starts empty, and the handle the primitive returned is stored.
Returns the cell, the event trace of construction, and the initial
representation passed to the primitive. -/
def Readable.init_store (handle : Nat) (initial_value : T) (mapping_fn : T → U) :
    Readable T U × List (Event T U) × U :=
  let repr := mapping_fn initial_value
  ({ value := initial_value
     set_store := none
     mapped_set_fn := mapping_fn
     store := handle },
   [Event.projection initial_value repr],
   repr)

/-- `Readable::new` (src/lib.rs lines 182-189): constructs the cell with
the default clone-and-convert projection `|v| v.clone().into()`; the
`Into<JsValue>` conversion is the parameter `into`. -/
def Readable.new (handle : Nat) (initial_value : T) (into : T → U) :
    Readable T U × List (Event T U) × U :=
  Readable.init_store handle initial_value (fun v => into v)

/-- `Readable::new_mapped` (src/lib.rs lines 216-221): constructs the cell
with a caller-supplied projection. -/
def Readable.new_mapped (handle : Nat) (initial_value : T) (mapping_fn : T → U) :
    Readable T U × List (Event T U) × U :=
  Readable.init_store handle initial_value mapping_fn

/-- `impl Default for Readable` (src/lib.rs lines 71-78):
`Self::new(T::default())`. The default value of `T` is the parameter
`default_value`. -/
def Readable.default (handle : Nat) (default_value : T) (into : T → U) :
    Readable T U × List (Event T U) × U :=
  Readable.new handle default_value into

/-- `impl Deref for Readable` (src/lib.rs lines 85-96): transparent
read-only access to the current value. -/
def Readable.deref (r : Readable T U) : T :=
  r.value

/-- The start closure registered with the external primitive inside
`Readable::init_store` (src/lib.rs lines 112-126). When the primitive
invokes it with a publish function `set_fn`, it publishes the projection
of the value current at that moment, discarding the call result
(`let _ = set_fn.call1(...)`), and then attempts to store `set_fn` in the
`OnceCell` (`let _ = set_store.set(set_fn)`), which keeps an
already-present value. -/
def Readable.start (pok : Nat → U → Bool) (r : Readable T U) (set_fn : Nat) :
    MutOut T U Unit :=
  let repr := r.mapped_set_fn r.value
  let _callResult : Except String Unit :=
    if pok set_fn repr then Except.ok () else Except.error "set_fn.call1 failed"
  { state :=
      { r with
        set_store :=
          match r.set_store with
          | some f => some f
          | none => some set_fn }
    events := [Event.projection r.value repr, Event.publish set_fn repr]
    result := Except.ok () }

/-- `Readable::set` (src/lib.rs lines 225-241): replaces the stored value,
then, if a publish callback has been captured, applies the projection to
the new value and forwards the result through the callback, aborting with
"failed to set readable store" when that call fails. -/
def Readable.set (pok : Nat → U → Bool) (r : Readable T U) (new_value : T) :
    MutOut T U Unit :=
  let r' := { r with value := new_value }
  match r.set_store with
  | some set_fn =>
    let repr := r.mapped_set_fn new_value
    { state := r'
      events := [Event.projection new_value repr, Event.publish set_fn repr]
      result :=
        if pok set_fn repr then Except.ok ()
        else Except.error "failed to set readable store" }
  | none => { state := r', events := [], result := Except.ok () }

/-- `Readable::set_with` (src/lib.rs lines 247-269): runs `f` on the
stored value with exclusive access (`FnOnce(&mut T) -> O` is embedded as
`T → T × O`: the value `f` leaves in place and the output it returns),
then performs the same publish step as `set` and returns the output of
`f`. On a failed publish it aborts, so no output is returned. -/
def Readable.set_with (pok : Nat → U → Bool) (r : Readable T U) (f : T → T × O) :
    MutOut T U O :=
  let fo := f r.value
  let r' := { r with value := fo.1 }
  match r.set_store with
  | some set_fn =>
    let repr := r.mapped_set_fn fo.1
    { state := r'
      events := [Event.projection fo.1 repr, Event.publish set_fn repr]
      result :=
        if pok set_fn repr then Except.ok fo.2
        else Except.error "failed to set readable store" }
  | none => { state := r', events := [], result := Except.ok fo.2 }

/-- Compilation target, for the `#[cfg(target_arch = "wasm32")]` split. -/
inductive Target where
  | wasm32
  | other
deriving DecidableEq

/-- `Readable::get_store` (src/lib.rs lines 306-315): on a non-wasm32
target it unconditionally panics; on wasm32 it returns (a clone of) the
opaque store handle. -/
def Readable.get_store (target : Target) (r : Readable T U) : Except String Nat :=
  match target with
  | Target.other =>
      Except.error
        "`Readable::get_store()` can only be called within `wasm32` targets"
  | Target.wasm32 => Except.ok r.store

/-- One mutation call in a sequence of mutations: `set(v)` or
`set_with(f)`. -/
inductive Mutation (T O : Type) where
  | set (v : T)
  | set_with (f : T → T × O)

/-- Run one mutation call, keeping the resulting cell state. -/
def applyMutation (pok : Nat → U → Bool) (r : Readable T U) :
    Mutation T O → Readable T U
  | Mutation.set v => (Readable.set pok r v).state
  | Mutation.set_with f => (Readable.set_with pok r f).state

/-- Run a sequence of mutation calls left to right. -/
def runMutations (pok : Nat → U → Bool) (r : Readable T U) :
    List (Mutation T O) → Readable T U
  | [] => r
  | m :: ms => runMutations pok (applyMutation pok r m) ms

/-- The value a mutation call installs when it runs against cell state
`r`: `set v` installs `v`; `set_with f` installs the value `f` leaves in
place. -/
def installedValue (r : Readable T U) : Mutation T O → T
  | Mutation.set v => v
  | Mutation.set_with f => (f r.value).1

/-- The state after `set` is the old state with the value replaced,
whether or not a publish callback has been captured. -/
theorem set_state (pok : Nat → U → Bool) (r : Readable T U) (v : T) :
    (Readable.set pok r v).state = { r with value := v } := by
  cases h : r.set_store <;> simp [Readable.set, h]

/-- The state after `set_with f` is the old state with the value `f`
left in place, whether or not a publish callback has been captured. -/
theorem set_with_state (pok : Nat → U → Bool) (r : Readable T U) (f : T → T × O) :
    (Readable.set_with pok r f).state = { r with value := (f r.value).1 } := by
  cases h : r.set_store <;> simp [Readable.set_with, h]

/-- Sample projection used by the concrete instances below. -/
def sampleProj : Nat → Nat := fun v => v * 2

/-- A concrete cell whose publish callback (id 5) has been captured. -/
def sampleCellCaptured : Readable Nat Nat :=
  { value := 1, set_store := some 5, mapped_set_fn := sampleProj, store := 0 }

/-- A concrete cell no observer has subscribed to yet. -/
def sampleCellFresh : Readable Nat Nat :=
  { value := 1, set_store := none, mapped_set_fn := sampleProj, store := 0 }

/-- Environment in which every publish call succeeds. -/
def alwaysOk : Nat → Nat → Bool := fun _ _ => true

/-- Environment in which every publish call fails. -/
def alwaysFail : Nat → Nat → Bool := fun _ _ => false

/-- C1: after the publish callback has been captured, `set` and
`set_with` each invoke the projection exactly once and forward exactly
one publish through the captured callback, in that order, and the
published representation is the projection of the post-mutation value. -/
theorem mutation_publishes_once_after_capture (pok : Nat → U → Bool)
    (r : Readable T U) (set_fn : Nat) (h : r.set_store = some set_fn)
    (v : T) (f : T → T × O) :
    (Readable.set pok r v).events =
        [Event.projection v (r.mapped_set_fn v),
         Event.publish set_fn (r.mapped_set_fn v)] ∧
      (Readable.set pok r v).state.value = v ∧
      (Readable.set_with pok r f).events =
        [Event.projection (f r.value).1 (r.mapped_set_fn (f r.value).1),
         Event.publish set_fn (r.mapped_set_fn (f r.value).1)] ∧
      (Readable.set_with pok r f).state.value = (f r.value).1 := by
  simp [Readable.set, Readable.set_with, h]

/-- C1 witness: the theorem applied to a concrete captured cell. -/
theorem mutation_publishes_once_after_capture_witness :
    sampleCellCaptured.set_store = some 5 ∧
      ((Readable.set alwaysOk sampleCellCaptured 9).events =
          [Event.projection 9 18, Event.publish 5 18] ∧
        (Readable.set alwaysOk sampleCellCaptured 9).state.value = 9 ∧
        (Readable.set_with alwaysOk sampleCellCaptured
            (fun v => (v + 1, 10))).events =
          [Event.projection 2 4, Event.publish 5 4] ∧
        (Readable.set_with alwaysOk sampleCellCaptured
            (fun v => (v + 1, 10))).state.value = 2) :=
  ⟨rfl,
   mutation_publishes_once_after_capture alwaysOk sampleCellCaptured 5 rfl 9
     (fun v => (v + 1, 10))⟩

/-- C2: before the publish callback has been captured, `set` and
`set_with` update the stored value but emit no event at all: zero
projection calls and zero publish calls, and both return normally. -/
theorem mutation_silent_before_capture (pok : Nat → U → Bool)
    (r : Readable T U) (h : r.set_store = none) (v : T) (f : T → T × O) :
    (Readable.set pok r v).state.value = v ∧
      (Readable.set pok r v).events = [] ∧
      (Readable.set pok r v).result = Except.ok () ∧
      (Readable.set_with pok r f).state.value = (f r.value).1 ∧
      (Readable.set_with pok r f).events = [] ∧
      (Readable.set_with pok r f).result = Except.ok (f r.value).2 := by
  simp [Readable.set, Readable.set_with, h]

/-- C2 witness: the theorem applied to a concrete fresh cell. -/
theorem mutation_silent_before_capture_witness :
    sampleCellFresh.set_store = none ∧
      ((Readable.set alwaysOk sampleCellFresh 9).state.value = 9 ∧
        (Readable.set alwaysOk sampleCellFresh 9).events = [] ∧
        (Readable.set alwaysOk sampleCellFresh 9).result = Except.ok () ∧
        (Readable.set_with alwaysOk sampleCellFresh
            (fun v => (v + 1, 10))).state.value = 2 ∧
        (Readable.set_with alwaysOk sampleCellFresh
            (fun v => (v + 1, 10))).events = [] ∧
        (Readable.set_with alwaysOk sampleCellFresh
            (fun v => (v + 1, 10))).result = Except.ok 10) :=
  ⟨rfl,
   mutation_silent_before_capture alwaysOk sampleCellFresh rfl 9
     (fun v => (v + 1, 10))⟩

/-- C3: when the start hook is invoked with a publish function on a cell
whose callback slot is still empty, it publishes the projection of the
value current at invocation time, exactly once and after exactly one
projection call, and stores the publish function. The final conjunct
shows the "current, not construction-time, value" part concretely: after
constructing with `v0` and then mutating to `v1` before any subscription,
the hook publishes the projection of `v1`. -/
theorem start_publishes_current_value (pok : Nat → U → Bool)
    (r : Readable T U) (set_fn : Nat) (h : r.set_store = none)
    (handle : Nat) (v0 v1 : T) (m : T → U) :
    (Readable.start pok r set_fn).events =
        [Event.projection r.value (r.mapped_set_fn r.value),
         Event.publish set_fn (r.mapped_set_fn r.value)] ∧
      (Readable.start pok r set_fn).state.set_store = some set_fn ∧
      (Readable.start pok
          (Readable.set pok (Readable.init_store handle v0 m).1 v1).state
          set_fn).events =
        [Event.projection v1 (m v1), Event.publish set_fn (m v1)] ∧
      (Readable.start pok
          (Readable.set pok (Readable.init_store handle v0 m).1 v1).state
          set_fn).state.set_store = some set_fn := by
  simp [Readable.start, Readable.set, Readable.init_store, h]

/-- C3 witness: the theorem applied to a concrete fresh cell, with a
construction-then-mutation prefix. -/
theorem start_publishes_current_value_witness :
    sampleCellFresh.set_store = none ∧
      ((Readable.start alwaysOk sampleCellFresh 5).events =
          [Event.projection 1 2, Event.publish 5 2] ∧
        (Readable.start alwaysOk sampleCellFresh 5).state.set_store = some 5 ∧
        (Readable.start alwaysOk
            (Readable.set alwaysOk (Readable.init_store 0 3 sampleProj).1 4).state
            5).events =
          [Event.projection 4 8, Event.publish 5 8] ∧
        (Readable.start alwaysOk
            (Readable.set alwaysOk (Readable.init_store 0 3 sampleProj).1 4).state
            5).state.set_store = some 5) :=
  ⟨rfl, start_publishes_current_value alwaysOk sampleCellFresh 5 rfl 0 3 4 sampleProj⟩

/-- C4 counterexample: the claim quantifies over every code path that
performs a publish, but in the start hook the result of the publish call
is discarded (`let _ = set_fn.call1(...)` in src/lib.rs lines 117-122):
in an environment where every publish call fails, the hook still performs
its publish and returns normally, with no abort surfacing the failure. -/
theorem start_swallows_publish_failure :
    Event.publish 5 2 ∈ (Readable.start alwaysFail sampleCellFresh 5).events ∧
      alwaysFail 5 2 = false ∧
      (Readable.start alwaysFail sampleCellFresh 5).result = Except.ok () := by
  refine ⟨?_, rfl, rfl⟩
  simp [Readable.start, sampleCellFresh, sampleProj]

/-- C4 amended: when the publish call made by `set` or `set_with` fails,
the stored value has already been updated to the new value and the
operation aborts with the descriptive message "failed to set readable
store"; the start hook, in contrast, discards the outcome of its publish
call and always returns normally. -/
theorem publish_failure_aborts_after_commit (pok : Nat → U → Bool)
    (r : Readable T U) (set_fn : Nat) (h : r.set_store = some set_fn)
    (v : T) (f : T → T × O)
    (hv : pok set_fn (r.mapped_set_fn v) = false)
    (hf : pok set_fn (r.mapped_set_fn (f r.value).1) = false) :
    ((Readable.set pok r v).state.value = v ∧
      (Readable.set pok r v).result =
        Except.error "failed to set readable store") ∧
    ((Readable.set_with pok r f).state.value = (f r.value).1 ∧
      (Readable.set_with pok r f).result =
        Except.error "failed to set readable store") ∧
    (∀ fn₂ : Nat, (Readable.start pok r fn₂).result = Except.ok ()) := by
  simp [Readable.set, Readable.set_with, Readable.start, h, hv, hf]

/-- C4 amended witness: the amended theorem applied to a concrete
captured cell in an environment where every publish call fails. -/
theorem publish_failure_aborts_after_commit_witness :
    sampleCellCaptured.set_store = some 5 ∧
      alwaysFail 5 (sampleCellCaptured.mapped_set_fn 9) = false ∧
      alwaysFail 5
          (sampleCellCaptured.mapped_set_fn
            ((fun v => (v + 1, 10)) sampleCellCaptured.value).1) = false ∧
      (((Readable.set alwaysFail sampleCellCaptured 9).state.value = 9 ∧
          (Readable.set alwaysFail sampleCellCaptured 9).result =
            Except.error "failed to set readable store") ∧
        ((Readable.set_with alwaysFail sampleCellCaptured
              (fun v => (v + 1, 10))).state.value = 2 ∧
          (Readable.set_with alwaysFail sampleCellCaptured
              (fun v => (v + 1, 10))).result =
            Except.error "failed to set readable store") ∧
        (∀ fn₂ : Nat,
          (Readable.start alwaysFail sampleCellCaptured fn₂).result =
            Except.ok ())) :=
  ⟨rfl, rfl, rfl,
   publish_failure_aborts_after_commit alwaysFail sampleCellCaptured 5 rfl 9
     (fun v => (v + 1, 10)) rfl rfl⟩

/-- C5: `set_with f` returns exactly the output of `f`, and (when a
publish callback is captured and the publish succeeds) performs the
publish step with the projection of the value after `f` has fully
returned — even when `f` does not mutate at all, as the witness shows. -/
theorem set_with_returns_output_and_publishes_final (pok : Nat → U → Bool)
    (r : Readable T U) (set_fn : Nat) (h : r.set_store = some set_fn)
    (f : T → T × O)
    (hp : pok set_fn (r.mapped_set_fn (f r.value).1) = true) :
    (Readable.set_with pok r f).result = Except.ok (f r.value).2 ∧
      (Readable.set_with pok r f).state.value = (f r.value).1 ∧
      (Readable.set_with pok r f).events =
        [Event.projection (f r.value).1 (r.mapped_set_fn (f r.value).1),
         Event.publish set_fn (r.mapped_set_fn (f r.value).1)] := by
  simp [Readable.set_with, h, hp]

/-- C5 witness: the theorem applied to a concrete captured cell with a
closure that only reads the value and performs no mutation; the publish
step still runs. -/
theorem set_with_returns_output_and_publishes_final_witness :
    sampleCellCaptured.set_store = some 5 ∧
      alwaysOk 5
          (sampleCellCaptured.mapped_set_fn
            ((fun v => (v, v + 41)) sampleCellCaptured.value).1) = true ∧
      ((Readable.set_with alwaysOk sampleCellCaptured
            (fun v => (v, v + 41))).result = Except.ok 42 ∧
        (Readable.set_with alwaysOk sampleCellCaptured
            (fun v => (v, v + 41))).state.value = 1 ∧
        (Readable.set_with alwaysOk sampleCellCaptured
            (fun v => (v, v + 41))).events =
          [Event.projection 1 2, Event.publish 5 2]) :=
  ⟨rfl, rfl,
   set_with_returns_output_and_publishes_final alwaysOk sampleCellCaptured 5 rfl
     (fun v => (v, v + 41)) rfl⟩

/-- C6: `get_store()` on a non-wasm32 target always fails loudly with the
source's panic message, never returning a degraded value, and on wasm32
it returns the opaque store handle. -/
theorem get_store_panics_off_wasm32 (r : Readable T U) :
    Readable.get_store Target.other r =
        Except.error
          "`Readable::get_store()` can only be called within `wasm32` targets" ∧
      Readable.get_store Target.wasm32 r = Except.ok r.store :=
  ⟨rfl, rfl⟩

/-- C7: for every sequence of `set`/`set_with` calls, a dereference read
performed after the i-th call (here: after an arbitrary prefix `ms`
followed by the call `m`) and before the next one returns exactly the
value installed by that call: for `set v` the value `v`, for `set_with f`
the value `f` left in place. -/
theorem read_returns_last_installed_value (pok : Nat → U → Bool)
    (r : Readable T U) (ms : List (Mutation T O)) (m : Mutation T O) :
    (applyMutation pok (runMutations pok r ms) m).deref =
      installedValue (runMutations pok r ms) m := by
  cases m with
  | set v =>
      simp [applyMutation, installedValue, Readable.deref, set_state]
  | set_with f =>
      simp [applyMutation, installedValue, Readable.deref, set_with_state]

/-- C8: `Readable::default()` behaves identically to
`Readable::new(T::default())`: the two constructions produce equal cell
states, equal construction traces, and in particular the same first
published representation handed to the external primitive. -/
theorem default_is_new_of_default (handle : Nat) (default_value : T)
    (into : T → U) :
    Readable.default handle default_value into =
        Readable.new handle default_value into ∧
      (Readable.default handle default_value into).2.2 =
        (Readable.new handle default_value into).2.2 :=
  ⟨rfl, rfl⟩

/-- C9: if the start hook runs a second time, the publish callback
captured by the first invocation is retained: the second invocation's
attempt to store its callback is silently ignored by the `OnceCell`, yet
the second invocation still performs its immediate publish through the
callback it was handed, and every subsequent mutation publishes through
the first callback. -/
theorem first_captured_callback_retained (pok pok₂ : Nat → U → Bool)
    (r : Readable T U) (h : r.set_store = none) (fn₀ fn₁ : Nat) (v : T) :
    (Readable.start pok r fn₀).state.set_store = some fn₀ ∧
      (Readable.start pok (Readable.start pok r fn₀).state fn₁).state.set_store =
        some fn₀ ∧
      (Readable.start pok (Readable.start pok r fn₀).state fn₁).events =
        [Event.projection r.value (r.mapped_set_fn r.value),
         Event.publish fn₁ (r.mapped_set_fn r.value)] ∧
      (Readable.set pok₂
          (Readable.start pok (Readable.start pok r fn₀).state fn₁).state
          v).events =
        [Event.projection v (r.mapped_set_fn v),
         Event.publish fn₀ (r.mapped_set_fn v)] := by
  simp [Readable.start, Readable.set, h]

/-- C9 witness: the theorem applied to a concrete fresh cell whose start
hook runs twice with distinct callbacks 5 and 6. -/
theorem first_captured_callback_retained_witness :
    sampleCellFresh.set_store = none ∧
      ((Readable.start alwaysOk sampleCellFresh 5).state.set_store = some 5 ∧
        (Readable.start alwaysOk
            (Readable.start alwaysOk sampleCellFresh 5).state 6).state.set_store =
          some 5 ∧
        (Readable.start alwaysOk
            (Readable.start alwaysOk sampleCellFresh 5).state 6).events =
          [Event.projection 1 2, Event.publish 6 2] ∧
        (Readable.set alwaysOk
            (Readable.start alwaysOk
              (Readable.start alwaysOk sampleCellFresh 5).state 6).state
            9).events =
          [Event.projection 9 18, Event.publish 5 18]) :=
  ⟨rfl,
   first_captured_callback_retained alwaysOk alwaysOk sampleCellFresh rfl 5 6 9⟩

/-- C10: every constructor (`init_store` wiring, `new`, `new_mapped`,
`default`) invokes the projection exactly once, eagerly, to compute the
initial representation handed to the external primitive: the
construction trace is exactly one projection event and no publish, and
the initial representation is the projection of the initial value. -/
theorem construction_projects_exactly_once (handle : Nat) (v : T)
    (m : T → U) (into : T → U) :
    (Readable.init_store handle v m).2.1 = [Event.projection v (m v)] ∧
      (Readable.init_store handle v m).2.2 = m v ∧
      (Readable.new handle v into).2.1 = [Event.projection v (into v)] ∧
      (Readable.new_mapped handle v m).2.1 = [Event.projection v (m v)] ∧
      (Readable.default handle v into).2.1 = [Event.projection v (into v)] :=
  ⟨rfl, rfl, rfl, rfl, rfl⟩

end SvelteStore
